import Mathlib

/-!
Verification of the codex CLI wrapper (`src/cli/codex/scripts/codex.py`):
input routing, timeout resolution, the line-delimited JSON event reducer,
and the outcome / exit-code mapping, shallowly embedded from the Python
source.  Python `None` and decoded JSON `null` coincide in CPython, so both
are represented by `Json.null`; fallible Python code (uncaught exceptions)
is modelled with `Except`.
-/

/-- A decoded JSON value, as produced by `json.loads`.  Numbers are modelled
as integers; no claim involves fractional payloads. -/
inductive Json where
  | null : Json
  | bool (b : Bool) : Json
  | num (n : Int) : Json
  | str (s : String) : Json
  | arr (elems : List Json) : Json
  | obj (fields : List (String × Json)) : Json

/-- Python `d.get(key, default)` on a decoded JSON object: the stored value
when the key is present (even when that value is `null`), the default
otherwise.  A decoded object has unique keys, so first-match lookup is
exact. -/
def pyGetD (fields : List (String × Json)) (key : String) (default : Json) : Json :=
  match fields.find? (fun p => p.1 == key) with
  | some p => p.2
  | none => default

/-- Python `d.get(key)`: absent keys give `None` (= `Json.null`). -/
def pyGet (fields : List (String × Json)) (key : String) : Json :=
  pyGetD fields key Json.null

/-- Python `d.get(key) == "lit"`: true exactly when the stored value is that
string (comparing `None` or any non-string to a string is `False`). -/
def Json.eqStr : Json → String → Bool
  | Json.str s, lit => s == lit
  | _, _ => false

/-- A decoded value viewed as a Python `str`, when it is one. -/
def Json.getStr? : Json → Option String
  | Json.str s => some s
  | _ => none

/-- `normalize_text` from `codex.py`: a plain string is returned verbatim; a
list is joined by `''.join(text)`, which raises `TypeError` (modelled as
`Except.error ()`) when some element is not a string; any other value gives
`None`. -/
def normalize_text (text : Json) : Except Unit (Option String) :=
  match text with
  | Json.str s => Except.ok (some s)
  | Json.arr elems =>
    match elems.mapM Json.getStr? with
    | some parts => Except.ok (some (String.join parts))
    | none => Except.error ()
  | _ => Except.ok none

/-- Python truthiness of an `Optional[str]` value (`if text:`): `None` and
the empty string are falsy. -/
def optStrTruthy : Option String → Bool
  | none => false
  | some s => !(s == "")

/-- The reducer state of `run_codex_process`: `thread_id` starts as `None`
and holds whatever `event.get('thread_id')` last stored; `last_agent_message`
starts as `None` and holds the last truthy normalized agent-message text. -/
structure ReductionState where
  thread_id : Json
  last_agent_message : Option String

/-- Both locals of `run_codex_process` start as `None`. -/
def initState : ReductionState :=
  { thread_id := Json.null, last_agent_message := none }

/-- The `thread.started` branch of the event loop:
`if event.get('type') == 'thread.started': thread_id = event.get('thread_id')`.
Note the assignment is unconditional on the previous value. -/
def reduceThreadStarted (st : ReductionState) (fields : List (String × Json)) :
    ReductionState :=
  if (pyGet fields "type").eqStr "thread.started" then
    { st with thread_id := pyGet fields "thread_id" }
  else st

/-- The `item.completed` branch of the event loop.  `event.get('item', {})`
substitutes `{}` only for an absent key; calling `.get` on a present
non-dict value (including `null`) raises `AttributeError`, modelled as
`Except.error ()`.  `normalize_text` may itself raise.  The captured text
overwrites `last_agent_message` only when truthy (`if text:`). -/
def reduceItemCompleted (st : ReductionState) (fields : List (String × Json)) :
    Except Unit ReductionState :=
  if (pyGet fields "type").eqStr "item.completed" then
    match pyGetD fields "item" (Json.obj []) with
    | Json.obj itemFields =>
      if (pyGet itemFields "type").eqStr "agent_message" then
        match normalize_text (pyGet itemFields "text") with
        | Except.error e => Except.error e
        | Except.ok text =>
          if optStrTruthy text then
            Except.ok { st with last_agent_message := text }
          else Except.ok st
      else Except.ok st
    | _ => Except.error ()
  else Except.ok st

/-- One decoded event through both branches of the loop body.  Calling
`event.get` on a non-dict decoded value raises `AttributeError`. -/
def reduceEvent (st : ReductionState) (event : Json) : Except Unit ReductionState :=
  match event with
  | Json.obj fields => reduceItemCompleted (reduceThreadStarted st fields) fields
  | _ => Except.error ()

/-- One raw stdout line, classified by what `line.strip()` + `json.loads`
does with it: whitespace-only (`continue`), a `json.JSONDecodeError`
(warn and `continue`), or a successfully decoded record. -/
inductive Line where
  | blank : Line
  | malformed : Line
  | record (event : Json) : Line

/-- The loop body of `run_codex_process` for one line. -/
def processLine (st : ReductionState) : Line → Except Unit ReductionState
  | Line.blank => Except.ok st
  | Line.malformed => Except.ok st
  | Line.record event => reduceEvent st event

/-- The `for line in process.stdout` loop from a given state: each line is
processed in order, and an uncaught exception (`Except.error`) aborts the
whole loop. -/
def foldLines (st : ReductionState) : List Line → Except Unit ReductionState
  | [] => Except.ok st
  | l :: rest =>
    match processLine st l with
    | Except.error e => Except.error e
    | Except.ok st' => foldLines st' rest

/-- The whole stdout stream reduced from the initial state. -/
def runLines (lines : List Line) : Except Unit ReductionState :=
  foldLines initState lines

/-- `should_stream_via_stdin` from `codex.py`: piped input, an embedded
newline, an embedded backslash, or length above 800 force stdin mode. -/
def should_stream_via_stdin (task_text : String) (piped : Bool) : Bool :=
  if piped then true
  else if task_text.contains '\n' then true
  else if task_text.contains '\\' then true
  else if task_text.length > 800 then true
  else false

/-- `use_stdin = explicit_stdin or should_stream_via_stdin(task_text, piped)`
from `main`. -/
def useStdin (explicit_stdin : Bool) (task_text : String) (piped : Bool) : Bool :=
  explicit_stdin || should_stream_via_stdin task_text piped

/-- `explicit_stdin` from `parse_args`: the task argument is the literal
sentinel dash. -/
def explicitStdinOf (task_arg : String) : Bool :=
  task_arg == "-"

/-- `DEFAULT_TIMEOUT = 7200` seconds. -/
def DEFAULT_TIMEOUT : Int := 7200

/-- `resolve_timeout` from `codex.py`, over the parse result of the
`CODEX_TIMEOUT` environment variable: `none` stands for an unset/empty
variable or one that `int()` rejects (`ValueError`); otherwise the parsed
integer.  Values above 10000 are taken as milliseconds (`parsed // 1000`,
exact floor division since the operand is positive); non-positive values
fall back to the default. -/
def resolve_timeout (raw : Option Int) : Int :=
  match raw with
  | none => DEFAULT_TIMEOUT
  | some parsed =>
    if parsed ≤ 0 then DEFAULT_TIMEOUT
    else if parsed > 10000 then parsed / 1000
    else parsed

/-- The state of `sys.stdin` as `codex.py` observes it: whether the object
is present (not `None`), whether it is attached to a tty, and the full text
`read()` would return. -/
structure Stdin where
  present : Bool
  isatty : Bool
  data : String

/-- `read_piped_task` from `codex.py`: `None` when stdin is absent or a tty,
`None` when the pipe yields no data, otherwise the piped text. -/
def read_piped_task (s : Stdin) : Option String :=
  if !s.present || s.isatty then none
  else if s.data == "" then none
  else some s.data

/-- The task-text selection logic of `main`: with the explicit sentinel the
task is read wholly from stdin (empty input is a fatal usage error, exit 1,
modelled as `Except.error ()`) and `piped = not sys.stdin.isatty()`;
otherwise a non-empty pipe replaces the positional argument, and an absent
pipe leaves the positional argument as the task.  Returns the chosen task
text together with the `piped` flag. -/
def selectTaskText (task_arg : String) (s : Stdin) : Except Unit (String × Bool) :=
  if explicitStdinOf task_arg then
    if s.data == "" then Except.error ()
    else Except.ok (s.data, !s.isatty)
  else
    match read_piped_task s with
    | some d => Except.ok (d, true)
    | none => Except.ok (task_arg, false)

/-- How the supervision of the child ended, one case per terminal path of
`run_codex_process`: a normal `process.wait` return, `TimeoutExpired`,
`FileNotFoundError` at spawn, or `KeyboardInterrupt`. -/
inductive TermEvent where
  | exited (returncode : Int) : TermEvent
  | timedOut : TermEvent
  | spawnFailed : TermEvent
  | interrupted : TermEvent

/-- The outcome taxonomy of a run. -/
inductive RunOutcome where
  | Success (message : String) (sessionId : Json) : RunOutcome
  | Timeout : RunOutcome
  | ChildNotFound : RunOutcome
  | NonZeroExit (code : Int) : RunOutcome
  | NoOutput : RunOutcome
  | Interrupted : RunOutcome

/-- Outcome determination from `run_codex_process`: on normal termination
the nonzero-exit check (`if returncode != 0`) precedes the missing-message
check (`if not last_agent_message`); the three exceptional paths map
directly. -/
def determineOutcome (ev : TermEvent) (st : ReductionState) : RunOutcome :=
  match ev with
  | TermEvent.exited returncode =>
    if !(returncode == 0) then RunOutcome.NonZeroExit returncode
    else if !(optStrTruthy st.last_agent_message) then RunOutcome.NoOutput
    else RunOutcome.Success (st.last_agent_message.getD "") st.thread_id
  | TermEvent.timedOut => RunOutcome.Timeout
  | TermEvent.spawnFailed => RunOutcome.ChildNotFound
  | TermEvent.interrupted => RunOutcome.Interrupted

/-- The process exit code of each outcome, collected from the `sys.exit`
calls of `run_codex_process` and the final `sys.exit(0)` of `main`. -/
def exitCodeOf : RunOutcome → Int
  | RunOutcome.Success _ _ => 0
  | RunOutcome.Timeout => 124
  | RunOutcome.ChildNotFound => 127
  | RunOutcome.NonZeroExit code => code
  | RunOutcome.NoOutput => 1
  | RunOutcome.Interrupted => 130

/-- The stderr diagnostic written (via `log_error`) on each path before
exiting; the success path writes none. -/
def diagnosticOf : RunOutcome → Option String
  | RunOutcome.Success _ _ => none
  | RunOutcome.Timeout => some "Codex execution timeout"
  | RunOutcome.ChildNotFound => some "codex command not found in PATH"
  | RunOutcome.NonZeroExit code =>
    some ("Codex exited with status " ++ toString code)
  | RunOutcome.NoOutput => some "Codex completed without agent_message output"
  | RunOutcome.Interrupted => some "Codex interrupted by user"

/-- The thread id a decoded event stores, when it is a `thread.started`
record: `some (event.get('thread_id'))` for such records, `none` for every
other event. -/
def eventThreadId : Json → Option Json
  | Json.obj fields =>
    if (pyGet fields "type").eqStr "thread.started" then
      some (pyGet fields "thread_id")
    else none
  | _ => none

/-- `eventThreadId` lifted to classified lines. -/
def lineThreadId : Line → Option Json
  | Line.record event => eventThreadId event
  | _ => none

/-- Following the spec's words: the thread id carried by the last
`ThreadStarted` record of the stream (`None` when there is none). -/
def lastThreadStartedId (lines : List Line) : Json :=
  ((lines.filterMap lineThreadId).getLast?).getD Json.null

/-- Following the spec's words: the normalized text of a qualifying
agent-message record — a record of type `item.completed` whose item is of
type `agent_message` and whose payload normalizes to a truthy (non-empty)
string; `none` for every other event. -/
def eventAgentText : Json → Option String
  | Json.obj fields =>
    if (pyGet fields "type").eqStr "item.completed" then
      match pyGetD fields "item" (Json.obj []) with
      | Json.obj itemFields =>
        if (pyGet itemFields "type").eqStr "agent_message" then
          match normalize_text (pyGet itemFields "text") with
          | Except.ok text => if optStrTruthy text then text else none
          | Except.error _ => none
        else none
      | _ => none
    else none
  | _ => none

/-- `eventAgentText` lifted to classified lines. -/
def lineAgentText : Line → Option String
  | Line.record event => eventAgentText event
  | _ => none

/-- Following the spec's words: the normalized text of the last qualifying
agent-message record of the stream, if any. -/
def lastAgentTextOf (lines : List Line) : Option String :=
  (lines.filterMap lineAgentText).getLast?

/-- A `thread.started` record carrying thread id `A`. -/
def exThreadA : Line :=
  Line.record (Json.obj [("type", Json.str "thread.started"),
                         ("thread_id", Json.str "A")])

/-- A `thread.started` record carrying thread id `B`. -/
def exThreadB : Line :=
  Line.record (Json.obj [("type", Json.str "thread.started"),
                         ("thread_id", Json.str "B")])

/-- An `item.completed` agent-message record with the given text payload. -/
def exAgentMsg (text : Json) : Line :=
  Line.record (Json.obj [("type", Json.str "item.completed"),
                         ("item", Json.obj [("type", Json.str "agent_message"),
                                            ("text", text)])])

/-! ## Helper lemmas on the event reducer -/

theorem getLast?_getD_cons {α : Type} (v : α) (L : List α) (a : α) :
    ((v :: L).getLast?).getD a = (L.getLast?).getD v := by
  rw [List.getLast?_cons]
  cases L.getLast? <;> simp

theorem getLast?_map_getD_cons {α β : Type} (v : α) (L : List α)
    (f : α → β) (b : β) :
    (((v :: L).getLast?).map f).getD b = ((L.getLast?).map f).getD (f v) := by
  rw [List.getLast?_cons]
  cases L.getLast? <;> simp

theorem reduceThreadStarted_thread (st : ReductionState)
    (fields : List (String × Json)) :
    (reduceThreadStarted st fields).thread_id =
      (eventThreadId (Json.obj fields)).getD st.thread_id := by
  unfold reduceThreadStarted eventThreadId
  split <;> rename_i hc <;> simp [hc]

theorem reduceThreadStarted_last (st : ReductionState)
    (fields : List (String × Json)) :
    (reduceThreadStarted st fields).last_agent_message =
      st.last_agent_message := by
  unfold reduceThreadStarted
  split <;> rfl

theorem reduceItemCompleted_ok {st st' : ReductionState}
    {fields : List (String × Json)}
    (h : reduceItemCompleted st fields = Except.ok st') :
    st'.thread_id = st.thread_id ∧
    st'.last_agent_message =
      ((eventAgentText (Json.obj fields)).map some).getD st.last_agent_message := by
  unfold reduceItemCompleted at h
  unfold eventAgentText
  cases hc1 : (pyGet fields "type").eqStr "item.completed" with
  | false =>
    simp only [hc1, Bool.false_eq_true, if_neg] at h ⊢
    cases h
    simp
  | true =>
    simp only [hc1, if_pos] at h ⊢
    cases hitem : pyGetD fields "item" (Json.obj []) with
    | obj itemFields =>
      rw [hitem] at h
      cases hc2 : (pyGet itemFields "type").eqStr "agent_message" with
      | false =>
        simp only [hc2, Bool.false_eq_true, if_neg] at h ⊢
        cases h
        simp
      | true =>
        simp only [hc2, if_pos] at h ⊢
        cases hnorm : normalize_text (pyGet itemFields "text") with
        | error e => rw [hnorm] at h; cases h
        | ok text =>
          rw [hnorm] at h
          cases ht : optStrTruthy text with
          | false =>
            simp only [ht, Bool.false_eq_true, if_neg] at h ⊢
            cases h
            simp
          | true =>
            simp only [ht, if_pos] at h ⊢
            cases h
            cases text with
            | none => simp [optStrTruthy] at ht
            | some t => simp
    | null => rw [hitem] at h; cases h
    | bool b => rw [hitem] at h; cases h
    | num n => rw [hitem] at h; cases h
    | str s => rw [hitem] at h; cases h
    | arr elems => rw [hitem] at h; cases h

theorem reduceEvent_ok {st st' : ReductionState} {e : Json}
    (h : reduceEvent st e = Except.ok st') :
    st'.thread_id = (eventThreadId e).getD st.thread_id ∧
    st'.last_agent_message =
      ((eventAgentText e).map some).getD st.last_agent_message := by
  cases e with
  | obj fields =>
    obtain ⟨h1, h2⟩ := reduceItemCompleted_ok h
    refine ⟨?_, ?_⟩
    · rw [h1, reduceThreadStarted_thread]
    · rw [h2, reduceThreadStarted_last]
  | null => cases h
  | bool b => cases h
  | num n => cases h
  | str s => cases h
  | arr elems => cases h

theorem processLine_ok {st st' : ReductionState} {l : Line}
    (h : processLine st l = Except.ok st') :
    st'.thread_id = (lineThreadId l).getD st.thread_id ∧
    st'.last_agent_message =
      ((lineAgentText l).map some).getD st.last_agent_message := by
  cases l with
  | blank => cases h; simp [lineThreadId, lineAgentText]
  | malformed => cases h; simp [lineThreadId, lineAgentText]
  | record e =>
    simpa [lineThreadId, lineAgentText] using reduceEvent_ok h

theorem foldLines_ok (lines : List Line) :
    ∀ (st st' : ReductionState), foldLines st lines = Except.ok st' →
      st'.thread_id =
        ((lines.filterMap lineThreadId).getLast?).getD st.thread_id ∧
      st'.last_agent_message =
        (((lines.filterMap lineAgentText).getLast?).map some).getD
          st.last_agent_message := by
  induction lines with
  | nil =>
    intro st st' h
    cases h
    simp
  | cons l ls ih =>
    intro st st' h
    unfold foldLines at h
    cases hstep : processLine st l with
    | error e => rw [hstep] at h; cases h
    | ok s1 =>
      rw [hstep] at h
      obtain ⟨ht, hm⟩ := ih s1 st' h
      obtain ⟨ht1, hm1⟩ := processLine_ok hstep
      refine ⟨?_, ?_⟩
      · rw [ht, ht1, List.filterMap_cons]
        cases hl : lineThreadId l with
        | none => simp
        | some v => simp [getLast?_getD_cons]
      · rw [hm, hm1, List.filterMap_cons]
        cases hl : lineAgentText l with
        | none => simp
        | some v => simp [getLast?_map_getD_cons]

theorem foldLines_skip (st : ReductionState) (pre post : List Line) (l : Line)
    (hl : ∀ s : ReductionState, processLine s l = Except.ok s) :
    foldLines st (pre ++ l :: post) = foldLines st (pre ++ post) := by
  induction pre generalizing st with
  | nil =>
    simp only [List.nil_append]
    conv_lhs => rw [foldLines]
    rw [hl st]
  | cons p ps ih =>
    simp only [List.cons_append]
    rw [foldLines, foldLines]
    cases hstep : processLine st p with
    | error e => rfl
    | ok s1 => exact ih s1

theorem reduceEvent_not_truthy {st : ReductionState}
    {fields itemFields : List (String × Json)} {t : Option String}
    (h1 : pyGet fields "type" = Json.str "item.completed")
    (h2 : pyGetD fields "item" (Json.obj []) = Json.obj itemFields)
    (h3 : pyGet itemFields "type" = Json.str "agent_message")
    (h4 : normalize_text (pyGet itemFields "text") = Except.ok t)
    (h5 : optStrTruthy t = false) :
    reduceEvent st (Json.obj fields) = Except.ok st := by
  simp [reduceEvent, reduceThreadStarted, reduceItemCompleted,
        h1, h2, h3, h4, h5, Json.eqStr]

/-! ## Claim theorems -/

/-- Claim C1, counterexample: the stream `ThreadStarted{id=A}`,
`ItemCompleted{agent_message "x"}`, `ThreadStarted{id=B}` ends with session
id `B`, not `A` as the claim states.  The assignment
`thread_id = event.get('thread_id')` is unconditional on the previous value,
so later `thread.started` records are not ignored. -/
theorem C1_counterexample :
    runLines [exThreadA, exAgentMsg (Json.str "x"), exThreadB] =
      Except.ok { thread_id := Json.str "B", last_agent_message := some "x" }
    ∧ Json.str "B" ≠ Json.str "A" := by
  refine ⟨rfl, ?_⟩
  intro hcontra
  injection hcontra with hs
  exact absurd hs (by decide)

/-- Claim C1, amended: the session identifier in the final `ReductionState`
is the thread id carried by the **last** `ThreadStarted` record of the
stream (every such record overwrites it), and `None` when there is none; in
particular `ThreadStarted{id=A}`, `ItemCompleted{...}`, `ThreadStarted{id=B}`
yields session id `B`. -/
theorem C1_last_thread_started_wins (lines : List Line) (st : ReductionState)
    (h : runLines lines = Except.ok st) :
    st.thread_id = lastThreadStartedId lines := by
  have hts := (foldLines_ok lines initState st h).1
  simpa [lastThreadStartedId, initState] using hts

/-- Claim C1, witness: the amended theorem applied to the three-record
counterexample stream, whose last `ThreadStarted` record carries `B`. -/
theorem C1_witness :
    runLines [exThreadA, exAgentMsg (Json.str "x"), exThreadB] =
      Except.ok { thread_id := Json.str "B", last_agent_message := some "x" }
    ∧ ({ thread_id := Json.str "B", last_agent_message := some "x" } :
          ReductionState).thread_id =
        lastThreadStartedId [exThreadA, exAgentMsg (Json.str "x"), exThreadB] :=
  ⟨rfl, C1_last_thread_started_wins _ _ rfl⟩

/-- Claim C6: the final agent message is the normalized text of the last
qualifying `item.completed` agent-message record of the stream (each such
record overwrites the previous value), and `None` when there is none. -/
theorem C6_last_agent_message_wins (lines : List Line) (st : ReductionState)
    (h : runLines lines = Except.ok st) :
    st.last_agent_message = lastAgentTextOf lines := by
  have hm := (foldLines_ok lines initState st h).2
  rw [hm]
  unfold lastAgentTextOf initState
  cases (lines.filterMap lineAgentText).getLast? <;> simp

/-- Claim C6, witness: two agent-message records with texts `"draft"` then
`"final"` yield final message `"final"`. -/
theorem C6_witness :
    runLines [exAgentMsg (Json.str "draft"), exAgentMsg (Json.str "final")] =
      Except.ok { thread_id := Json.null, last_agent_message := some "final" }
    ∧ ({ thread_id := Json.null, last_agent_message := some "final" } :
          ReductionState).last_agent_message =
        lastAgentTextOf [exAgentMsg (Json.str "draft"),
                         exAgentMsg (Json.str "final")] :=
  ⟨rfl, C6_last_agent_message_wins _ _ rfl⟩

/-- Claim C8: a malformed line (one that raises `json.JSONDecodeError`) is a
non-fatal warning — the remaining lines are still processed and the final
result over a stream containing the malformed line equals the result over
the stream with it removed; a blank line is likewise skipped. -/
theorem C8_malformed_and_blank_skipped (st : ReductionState)
    (pre post : List Line) :
    foldLines st (pre ++ Line.malformed :: post) = foldLines st (pre ++ post)
    ∧ foldLines st (pre ++ Line.blank :: post) = foldLines st (pre ++ post) :=
  ⟨foldLines_skip st pre post Line.malformed (fun _ => rfl),
   foldLines_skip st pre post Line.blank (fun _ => rfl)⟩

/-- Claim C9: an agent-message record whose normalized text is the empty
string leaves the reducer state unchanged (`if text:` is false for `''`),
and a stream none of whose lines is a qualifying non-empty agent message
ends with no captured agent message. -/
theorem C9_empty_text_no_update :
    (∀ (st : ReductionState) (fields itemFields : List (String × Json)),
      pyGet fields "type" = Json.str "item.completed" →
      pyGetD fields "item" (Json.obj []) = Json.obj itemFields →
      pyGet itemFields "type" = Json.str "agent_message" →
      normalize_text (pyGet itemFields "text") = Except.ok (some "") →
      reduceEvent st (Json.obj fields) = Except.ok st)
    ∧ (∀ (lines : List Line) (st : ReductionState),
        runLines lines = Except.ok st →
        (∀ l ∈ lines, lineAgentText l = none) →
        st.last_agent_message = none) := by
  constructor
  · intro st fields itemFields h1 h2 h3 h4
    exact reduceEvent_not_truthy h1 h2 h3 h4 rfl
  · intro lines st h hnone
    have hm := (foldLines_ok lines initState st h).2
    rw [List.filterMap_eq_nil_iff.mpr hnone] at hm
    simpa [initState] using hm

/-- Claim C9, witness: a stream holding one agent-message record with text
`""` ends with no captured agent message, and that record leaves the initial
state unchanged. -/
theorem C9_witness :
    reduceEvent initState
      (Json.obj [("type", Json.str "item.completed"),
                 ("item", Json.obj [("type", Json.str "agent_message"),
                                    ("text", Json.str "")])]) =
      Except.ok initState
    ∧ initState.last_agent_message = none :=
  ⟨C9_empty_text_no_update.1 initState
      [("type", Json.str "item.completed"),
       ("item", Json.obj [("type", Json.str "agent_message"),
                          ("text", Json.str "")])]
      [("type", Json.str "agent_message"), ("text", Json.str "")]
      rfl rfl rfl rfl,
   C9_empty_text_no_update.2 [exAgentMsg (Json.str "")] initState rfl
      (by intro l hl; simp only [List.mem_singleton] at hl; subst hl; rfl)⟩

/-- Claim C2: delivery is via stdin (Streamed) exactly when the task arrived
via a pipe, or the text contains a newline, or a backslash, or is longer
than 800 characters, or the explicit sentinel dash was given as the task
argument; otherwise the task is passed inline. -/
theorem C2_streamed_iff (task_arg task_text : String) (piped : Bool) :
    useStdin (explicitStdinOf task_arg) task_text piped = true ↔
      (piped = true ∨ task_text.contains '\n' = true ∨
       task_text.contains '\\' = true ∨ 800 < task_text.length ∨
       task_arg = "-") := by
  unfold useStdin explicitStdinOf should_stream_via_stdin
  cases piped <;>
    by_cases h1 : task_text.contains '\n' = true <;>
    by_cases h2 : task_text.contains '\\' = true <;>
    by_cases h3 : 800 < task_text.length <;>
    by_cases h4 : task_arg = "-" <;>
    simp_all

/-- Claim C3: on normal child termination the nonzero-exit check runs first
(so `NonZeroExit` takes priority over `NoOutput` even when no message was
captured); exit code 0 with no captured message yields `NoOutput`, whose
process exit code is 1; exit code 0 with a captured (non-empty) message
yields `Success`. -/
theorem C3_normal_exit_outcome (returncode : Int) (st : ReductionState) :
    (returncode ≠ 0 →
      determineOutcome (TermEvent.exited returncode) st =
        RunOutcome.NonZeroExit returncode)
    ∧ (returncode = 0 → st.last_agent_message = none →
      determineOutcome (TermEvent.exited returncode) st = RunOutcome.NoOutput)
    ∧ exitCodeOf RunOutcome.NoOutput = 1
    ∧ (∀ m : String, returncode = 0 → st.last_agent_message = some m →
        m ≠ "" →
        determineOutcome (TermEvent.exited returncode) st =
          RunOutcome.Success m st.thread_id) := by
  refine ⟨?_, ?_, rfl, ?_⟩
  · intro h
    simp [determineOutcome, h]
  · intro h hm
    simp [determineOutcome, h, hm, optStrTruthy]
  · intro m h hm hne
    simp [determineOutcome, h, hm, optStrTruthy, hne]

/-- Claim C3, witness: exit code 5 with no message gives `NonZeroExit 5`;
exit code 0 with no message gives `NoOutput`; exit code 0 with message
`"hi"` gives `Success`. -/
theorem C3_witness :
    determineOutcome (TermEvent.exited 5) initState = RunOutcome.NonZeroExit 5
    ∧ determineOutcome (TermEvent.exited 0) initState = RunOutcome.NoOutput
    ∧ determineOutcome (TermEvent.exited 0)
        { thread_id := Json.null, last_agent_message := some "hi" } =
        RunOutcome.Success "hi" Json.null :=
  ⟨(C3_normal_exit_outcome 5 initState).1 (by decide),
   (C3_normal_exit_outcome 0 initState).2.1 rfl rfl,
   (C3_normal_exit_outcome 0
      { thread_id := Json.null, last_agent_message := some "hi" }).2.2.2
      "hi" rfl rfl (by decide)⟩

/-- Claim C4: each outcome maps to its distinct process exit code —
`Success` 0, `Timeout` 124, `ChildNotFound` 127, `Interrupted` 130,
`NonZeroExit code` propagates `code` verbatim, `NoOutput` 1 — and a
diagnostic is written to stderr exactly for the non-success outcomes. -/
theorem C4_exit_codes :
    (∀ (m : String) (sid : Json), exitCodeOf (RunOutcome.Success m sid) = 0)
    ∧ exitCodeOf RunOutcome.Timeout = 124
    ∧ exitCodeOf RunOutcome.ChildNotFound = 127
    ∧ exitCodeOf RunOutcome.Interrupted = 130
    ∧ (∀ code : Int, exitCodeOf (RunOutcome.NonZeroExit code) = code)
    ∧ exitCodeOf RunOutcome.NoOutput = 1
    ∧ (∀ o : RunOutcome, (diagnosticOf o).isSome = true ↔
        ∀ (m : String) (sid : Json), o ≠ RunOutcome.Success m sid) := by
  refine ⟨fun _ _ => rfl, rfl, rfl, rfl, fun _ => rfl, rfl, ?_⟩
  intro o
  cases o with
  | Success m0 sid0 =>
    simp only [diagnosticOf, Option.isSome_none, Bool.false_eq_true,
               false_iff]
    intro hall
    exact (hall m0 sid0) rfl
  | Timeout => simp [diagnosticOf]
  | ChildNotFound => simp [diagnosticOf]
  | NonZeroExit code => simp [diagnosticOf]
  | NoOutput => simp [diagnosticOf]
  | Interrupted => simp [diagnosticOf]

/-- Claim C5: a parsed timeout value strictly above 10000 is taken as
milliseconds and divided by 1000; a positive value at or below 10000 is
used unchanged as seconds; non-positive, non-numeric and unset values give
the 7200-second default; in particular 5000 gives 5000 and 20000 gives
20. -/
theorem C5_timeout_resolution (v : Int) :
    (10000 < v → resolve_timeout (some v) = v / 1000)
    ∧ (0 < v → v ≤ 10000 → resolve_timeout (some v) = v)
    ∧ (v ≤ 0 → resolve_timeout (some v) = 7200)
    ∧ resolve_timeout none = 7200
    ∧ resolve_timeout (some 5000) = 5000
    ∧ resolve_timeout (some 20000) = 20 := by
  refine ⟨?_, ?_, ?_, rfl, by decide, by decide⟩
  · intro h
    simp only [resolve_timeout]
    rw [if_neg (by omega), if_pos (by omega)]
  · intro h1 h2
    simp only [resolve_timeout]
    rw [if_neg (by omega), if_neg (by omega)]
  · intro h
    simp only [resolve_timeout]
    rw [if_pos h]
    rfl

/-- Claim C5, witness: the three guarded branches evaluated at 20000, 5000
and -7. -/
theorem C5_witness :
    resolve_timeout (some 20000) = 20000 / 1000
    ∧ resolve_timeout (some 5000) = 5000
    ∧ resolve_timeout (some (-7)) = 7200 :=
  ⟨(C5_timeout_resolution 20000).1 (by decide),
   (C5_timeout_resolution 5000).2.1 (by decide) (by decide),
   (C5_timeout_resolution (-7)).2.2.1 (by decide)⟩

/-- Claim C7, counterexample: the payload `[1]` is neither a single string
nor a sequence of string fragments, so per the claim it should produce no
update; instead `''.join([1])` raises an uncaught `TypeError`, and a run
whose stream holds such a record aborts rather than completing with the
state unchanged. -/
theorem C7_counterexample :
    normalize_text (Json.arr [Json.num 1]) = Except.error ()
    ∧ runLines [exAgentMsg (Json.arr [Json.num 1])] = Except.error ()
    ∧ (Except.error () : Except Unit ReductionState) ≠ Except.ok initState :=
  ⟨rfl, rfl, fun hcontra => Except.noConfusion hcontra⟩

/-- Claim C7, amended: a single string is used verbatim; a sequence all of
whose elements are strings is concatenated in order with no separator; a
non-string, non-sequence payload produces no update (normalizes to `None`,
and a record carrying such a payload leaves the reducer state unchanged);
but a sequence containing a non-string element raises an uncaught
`TypeError` that aborts the run. -/
theorem C7_normalize_text_amended :
    (∀ s : String, normalize_text (Json.str s) = Except.ok (some s))
    ∧ (∀ (elems : List Json) (parts : List String),
        elems.mapM Json.getStr? = some parts →
        normalize_text (Json.arr elems) = Except.ok (some (String.join parts)))
    ∧ (∀ elems : List Json, elems.mapM Json.getStr? = none →
        normalize_text (Json.arr elems) = Except.error ())
    ∧ normalize_text Json.null = Except.ok none
    ∧ (∀ b : Bool, normalize_text (Json.bool b) = Except.ok none)
    ∧ (∀ n : Int, normalize_text (Json.num n) = Except.ok none)
    ∧ (∀ fields : List (String × Json),
        normalize_text (Json.obj fields) = Except.ok none)
    ∧ (∀ (st : ReductionState) (fields itemFields : List (String × Json)),
        pyGet fields "type" = Json.str "item.completed" →
        pyGetD fields "item" (Json.obj []) = Json.obj itemFields →
        pyGet itemFields "type" = Json.str "agent_message" →
        normalize_text (pyGet itemFields "text") = Except.ok none →
        reduceEvent st (Json.obj fields) = Except.ok st) := by
  refine ⟨fun _ => rfl, ?_, ?_, rfl, fun _ => rfl, fun _ => rfl,
          fun _ => rfl, ?_⟩
  · intro elems parts hm
    simp only [normalize_text]
    rw [hm]
  · intro elems hm
    simp only [normalize_text]
    rw [hm]
  · intro st fields itemFields h1 h2 h3 h4
    exact reduceEvent_not_truthy h1 h2 h3 h4 rfl

/-- Claim C7, witness: the amended branches evaluated on a verbatim string,
a two-fragment list, the crashing list `[1]`, and a `null` payload inside a
full agent-message record. -/
theorem C7_witness :
    normalize_text (Json.str "verbatim") = Except.ok (some "verbatim")
    ∧ normalize_text (Json.arr [Json.str "ab", Json.str "cd"]) =
        Except.ok (some (String.join ["ab", "cd"]))
    ∧ normalize_text (Json.arr [Json.num 1]) = Except.error ()
    ∧ reduceEvent initState
        (Json.obj [("type", Json.str "item.completed"),
                   ("item", Json.obj [("type", Json.str "agent_message"),
                                      ("text", Json.null)])]) =
        Except.ok initState :=
  ⟨C7_normalize_text_amended.1 "verbatim",
   C7_normalize_text_amended.2.1 [Json.str "ab", Json.str "cd"] ["ab", "cd"]
     rfl,
   C7_normalize_text_amended.2.2.1 [Json.num 1] rfl,
   C7_normalize_text_amended.2.2.2.2.2.2.2 initState
     [("type", Json.str "item.completed"),
      ("item", Json.obj [("type", Json.str "agent_message"),
                         ("text", Json.null)])]
     [("type", Json.str "agent_message"), ("text", Json.null)]
     rfl rfl rfl rfl⟩

/-- Claim C10: when the task argument is not the sentinel dash and stdin is
a present, non-tty pipe yielding non-empty data, the piped content becomes
the task text (with the piped flag set) and the positional argument is not
used. -/
theorem C10_pipe_replaces_argument (task_arg : String) (s : Stdin)
    (hArg : task_arg ≠ "-") (hPresent : s.present = true)
    (hTty : s.isatty = false) (hData : s.data ≠ "") :
    selectTaskText task_arg s = Except.ok (s.data, true) := by
  unfold selectTaskText explicitStdinOf read_piped_task
  simp [hArg, hPresent, hTty, hData]

/-- Claim C10, witness: a positional argument `"inline task"` together with
a pipe holding `"piped task"` delivers the piped text. -/
theorem C10_witness :
    selectTaskText "inline task"
      { present := true, isatty := false, data := "piped task" } =
      Except.ok ("piped task", true) :=
  C10_pipe_replaces_argument "inline task"
    { present := true, isatty := false, data := "piped task" }
    (by decide) rfl rfl (by decide)
